import Mathlib

/-!
# Verification of the eelytics-api telemetry bridge (`wsgi.py`)

A shallow embedding of the single application module `wsgi.py` of the
`eelytics-api` repository, together with proofs about its behaviour.

The module bridges MQTT sensor messages into database rows and exposes a
small HTTP surface.  The embedding models:

* Python exceptions as an explicit error type (`PyErr`), with fallible
  steps returning `Except PyErr _`;
* JSON values (`Json`) as produced by `json.loads`;
* the payload of an inbound MQTT message by the observable outcomes of
  the two library calls the handler applies to it
  (`message.payload.decode()` and `json.loads`), since the byte-level
  UTF-8 and JSON grammars are library code, not code of this repository;
* the database session and table as explicit state (`DbState`):
  `db.session.add` appends to a pending list, `db.session.commit`
  type-checks pending rows against the declared column types and the
  `nullable=False` constraints of the `WaterLevel` model and appends them
  to the stored rows, `db.session.rollback` clears the pending list.
-/

namespace Eelytics

/-- Python exceptions that the code in `wsgi.py` can raise. -/
inductive PyErr where
  /-- `NameError`: an unbound name was evaluated. -/
  | nameError (n : String)
  /-- `KeyError`: dict subscript with a missing key (`data['level']`). -/
  | keyError (k : String)
  /-- `TypeError`: subscripting a non-dict value with a string key. -/
  | typeError
  /-- `ValueError`: `int()` applied to a non-integer string. -/
  | valueError
  /-- `IndexError`: list subscript out of range (`topic_parts[i]`). -/
  | indexError
  /-- `UnicodeDecodeError`: `message.payload.decode()` on invalid UTF-8. -/
  | unicodeDecodeError
  /-- `json.JSONDecodeError`: `json.loads` on text that is not JSON. -/
  | jsonDecodeError
  /-- Database driver error: a value whose type does not fit its column. -/
  | dataError
  /-- Database `NOT NULL` violation on commit (`nullable=False`). -/
  | integrityError
  /-- Database unreachable / commit refused by the store. -/
  | operationalError
  deriving DecidableEq, Repr

/-- `str(e)` for the exceptions above.  Only the `NameError` text is
observable in an HTTP response body (the 500 branch of
`api_command_gate`); the Python rendering is reproduced exactly there. -/
def pyErrStr : PyErr → String
  | .nameError n => "name " ++ [Char.ofNat 39].asString ++ n
      ++ [Char.ofNat 39].asString ++ " is not defined"
  | .keyError k => k
  | .typeError => "TypeError"
  | .valueError => "ValueError"
  | .indexError => "list index out of range"
  | .unicodeDecodeError => "UnicodeDecodeError"
  | .jsonDecodeError => "JSONDecodeError"
  | .dataError => "DataError"
  | .integrityError => "IntegrityError"
  | .operationalError => "OperationalError"

/-- JSON values, as returned by `json.loads`.  An `obj` is the Python
dict resulting from decoding (keys are distinct by construction of the
decoder; lookup is by first occurrence). -/
inductive Json where
  | null
  | bool (b : Bool)
  | num (q : ℚ)
  | str (s : String)
  | arr (elems : List Json)
  | obj (fields : List (String × Json))

/-- Python `data[k]` on a decoded JSON value: `KeyError` when `data` is a
dict without key `k`, `TypeError` when `data` is not a dict. -/
def dictGet (j : Json) (k : String) : Except PyErr Json :=
  match j with
  | .obj fields =>
      match fields.lookup k with
      | some v => .ok v
      | none => .error (.keyError k)
  | _ => .error .typeError

/-- Python `data.get(k)` on a decoded JSON value: `none` when the key is
absent, `TypeError`-like failure when `data` is not a dict (attribute
error on non-dicts; collapsed to `typeError`). -/
def dictGetOpt (j : Json) (k : String) : Except PyErr (Option Json) :=
  match j with
  | .obj fields => .ok (fields.lookup k)
  | _ => .error .typeError

/-- Python list subscript `xs[i]`: `IndexError` when out of range. -/
def pyIndex {α : Type} (xs : List α) (i : Nat) : Except PyErr α :=
  match xs.get? i with
  | some x => .ok x
  | none => .error .indexError

/-- Python `s.split(sep)` for a single-character separator, over the
character list of `s`: splitting the empty string yields `['']`, and
adjacent/leading/trailing separators yield empty segments, exactly as in
Python. -/
def pySplit (sep : Char) : List Char → List String
  | [] => [""]
  | c :: cs =>
      let rest := pySplit sep cs
      if c = sep then "" :: rest
      else
        match rest with
        | [] => [String.mk [c]]
        | r :: rs => String.mk (c :: r.toList) :: rs

/-- Strip leading and trailing whitespace (the stripping `int()` applies
to its string argument). -/
def stripWS (cs : List Char) : List Char :=
  ((cs.dropWhile Char.isWhitespace).reverse.dropWhile Char.isWhitespace).reverse

/-- Value of a nonempty all-decimal-digit character list, `none` otherwise. -/
def decDigits? (cs : List Char) : Option Nat :=
  match cs with
  | [] => none
  | _ => cs.foldl
      (fun acc c =>
        match acc with
        | none => none
        | some n => if c.isDigit then some (n * 10 + (c.toNat - 48)) else none)
      (some 0)

/-- Python `int(s)` on a string: surrounding whitespace stripped, an
optional single sign, then one or more decimal digits; anything else
raises `ValueError`.  (Underscore digit grouping is not modelled.) -/
def pyIntOfString (s : String) : Except PyErr Int :=
  match stripWS s.toList with
  | '-' :: rest =>
      match decDigits? rest with
      | some n => .ok (-(n : Int))
      | none => .error .valueError
  | '+' :: rest =>
      match decDigits? rest with
      | some n => .ok (n : Int)
      | none => .error .valueError
  | cs =>
      match decDigits? cs with
      | some n => .ok (n : Int)
      | none => .error .valueError

/-! ## The `WaterLevel` model and the database session -/

/-- A stored row of the `WaterLevel` table (wsgi.py lines 32-39).  The
columns `tank_id` and `level_cm` are `Option`-typed because SQL columns
are nullable at the type level; the `nullable=False` declarations of the
model are enforced by `commit` below. -/
structure WaterLevel where
  id : Nat
  tank_id : Option Int
  level_cm : Option ℚ
  timestamp : Nat
  deriving DecidableEq, Repr

/-- A row added to the session but not yet committed.  `tank_id` is an
`Int` because it was produced by `int(...)`; `level_cm` holds whatever
Python value `data['level']` was, type-checked only at commit time. -/
structure PendingWaterLevel where
  tank_id : Int
  level_cm : Json

/-- The state visible to the application: the committed rows of the
`WaterLevel` table, the session's pending (added, uncommitted) rows, the
next auto-assigned primary key, the current value of `db.func.now()`,
and whether the store currently refuses commits (unreachable / faulty). -/
structure DbState where
  rows : List WaterLevel
  pending : List PendingWaterLevel
  nextId : Nat
  now : Nat
  dbFault : Bool

/-- `db.session.rollback()`: discard the pending rows. -/
def rollback (st : DbState) : DbState := { st with pending := [] }

/-- Column/constraint check performed by the store at commit: the value
bound to `level_cm` must fit the `Float` column (`num`), `null` violates
`nullable=False`, and any other value is a driver type error. -/
def validateLevel : Json → Except PyErr ℚ
  | .num q => .ok q
  | .null => .error .integrityError
  | _ => .error .dataError

/-- Validate every pending row in insertion order, or raise the first
store error. -/
def validatePending : List PendingWaterLevel → Except PyErr (List (Int × ℚ))
  | [] => .ok []
  | p :: ps =>
      match validateLevel p.level_cm with
      | .error e => .error e
      | .ok q =>
          match validatePending ps with
          | .error e => .error e
          | .ok rest => .ok ((p.tank_id, q) :: rest)

/-- Turn validated pending values into stored rows, assigning successive
auto-increment ids and the `db.func.now()` default timestamp. -/
def insertRows (nextId now : Nat) : List (Int × ℚ) → List WaterLevel
  | [] => []
  | (t, q) :: rest =>
      { id := nextId, tank_id := some t, level_cm := some q,
        timestamp := now } :: insertRows (nextId + 1) now rest

/-- `db.session.commit()`: when the store is reachable and every pending
row satisfies the column types and constraints, append the pending rows
to the table (auto-assigning ids and the `db.func.now()` default
timestamp) and clear the session; otherwise raise. -/
def commit (st : DbState) : Except PyErr DbState :=
  if st.dbFault then .error .operationalError
  else
    match validatePending st.pending with
    | .error e => .error e
    | .ok vals =>
        .ok { rows := st.rows ++ insertRows st.nextId st.now vals
              pending := []
              nextId := st.nextId + vals.length
              now := st.now + 1
              dbFault := st.dbFault }

/-! ## Inbound MQTT messages and the message handler -/

/-- The payload of an inbound MQTT message, modelled by the observable
outcomes of the two library calls the handler applies to it:
`message.payload.decode()` (UTF-8) and `json.loads`. -/
inductive Payload where
  /-- The bytes are not valid UTF-8: `.decode()` raises. -/
  | undecodable
  /-- The bytes decode to `text`, but `json.loads text` raises. -/
  | unparsable (text : String)
  /-- The bytes decode to `text` and `json.loads text` yields `data`. -/
  | decoded (text : String) (data : Json)

/-- `message.payload.decode()`. -/
def payloadDecode : Payload → Except PyErr String
  | .undecodable => .error .unicodeDecodeError
  | .unparsable t => .ok t
  | .decoded t _ => .ok t

/-- `json.loads` applied to the decoded text of the payload. -/
def jsonLoads : Payload → Except PyErr Json
  | .undecodable => .error .unicodeDecodeError
  | .unparsable _ => .error .jsonDecodeError
  | .decoded _ j => .ok j

/-- An inbound MQTT message as seen by `handle_mqtt_message`. -/
structure MqttMessage where
  topic : String
  payload : Payload

/-- The `try` block of `handle_mqtt_message` (wsgi.py lines 71-88):
split the topic, decode and parse the payload, and — when
`topic_parts[1] == 'tank' and topic_parts[3] == 'water_level'` — build a
`WaterLevel` row from `int(topic_parts[2])` and `data['level']`, add it
to the session and commit.  Returns the updated state, or the exception
raised together with the state at the point of the raise. -/
def handleBody (st : DbState) (msg : MqttMessage) :
    Except (DbState × PyErr) DbState :=
  let topic_parts := pySplit '/' msg.topic.toList
  match payloadDecode msg.payload with
  | .error e => .error (st, e)
  | .ok _ =>
  match jsonLoads msg.payload with
  | .error e => .error (st, e)
  | .ok data =>
  match pyIndex topic_parts 1 with
  | .error e => .error (st, e)
  | .ok p1 =>
  if p1 = "tank" then
    match pyIndex topic_parts 3 with
    | .error e => .error (st, e)
    | .ok p3 =>
    if p3 = "water_level" then
      match pyIndex topic_parts 2 with
      | .error e => .error (st, e)
      | .ok tidStr =>
      match pyIntOfString tidStr with
      | .error e => .error (st, e)
      | .ok tid =>
      match dictGet data "level" with
      | .error e => .error (st, e)
      | .ok lvl =>
        let st1 := { st with pending := st.pending ++ [⟨tid, lvl⟩] }
        match commit st1 with
        | .error e => .error (st1, e)
        | .ok st2 => .ok st2
    else .ok st
  else .ok st

/-- What an invocation of the handler does besides updating state:
return normally, or let a Python exception escape. -/
inductive HandlerOutcome where
  | ok
  | raised (e : PyErr)
  deriving DecidableEq, Repr

/-- `handle_mqtt_message` (wsgi.py lines 67-94).  The `except` block
rolls the session back and then logs — and its second log line
re-evaluates `message.payload.decode()`
(`print(f"Failed Payload: ...")`, line 94), so when the payload is not
valid UTF-8 the `UnicodeDecodeError` raised there escapes the handler. -/
def handle_mqtt_message (st : DbState) (msg : MqttMessage) :
    DbState × HandlerOutcome :=
  match handleBody st msg with
  | .ok st2 => (st2, .ok)
  | .error (st1, _e) =>
      let st2 := rollback st1
      match payloadDecode msg.payload with
      | .ok _ => (st2, .ok)
      | .error e2 => (st2, .raised e2)

/-! ## Outbound publishing -/

/-- A message published to the broker. The payload is kept as the JSON
value that `json.dumps` serialises. -/
structure PublishedMessage where
  topic : String
  payload : Json

/-- `send_gate_command` (wsgi.py lines 43-51): publish one command
message to `command/gate/<tank_id>/action` with payload
`{"action": command}`.  The return value is the list of messages
published to the broker by the call. -/
def send_gate_command (tank_id : Int) (command : String) :
    List PublishedMessage :=
  [{ topic := "command/gate/" ++ toString tank_id ++ "/action",
     payload := Json.obj [("action", Json.str command)] }]

/-! ## HTTP routes -/

/-- The serialized form of a stored row, as built by `get_levels`
(wsgi.py lines 130-137): `{id, tank_id, level_cm, timestamp}`.  The
`timestamp.isoformat()` string is represented by the instant itself
(ISO 8601 rendering is injective and order-preserving). -/
structure LevelJson where
  id : Nat
  tank_id : Option Int
  level_cm : Option ℚ
  timestamp : Nat
  deriving DecidableEq, Repr

/-- Serialization of one row (the dict comprehension of `get_levels`). -/
def serializeLevel (l : WaterLevel) : LevelJson :=
  { id := l.id, tank_id := l.tank_id, level_cm := l.level_cm,
    timestamp := l.timestamp }

/-- `get_levels` (wsgi.py lines 123-138): select every `WaterLevel` row
ordered by `timestamp` descending and serialize each one.  The store's
`ORDER BY timestamp DESC` is modelled as a merge sort of the stored rows
under the non-increasing-timestamp relation. -/
def get_levels (st : DbState) : List LevelJson :=
  ((st.rows).mergeSort (fun a b => Nat.ble b.timestamp a.timestamp)).map
    serializeLevel

/-- The JSON body and status code of an HTTP response. -/
structure HttpResponse where
  httpStatus : Nat
  body : Json

/-- The response of the health-check route `home`. -/
structure HomeResponse where
  httpStatus : Nat
  status : String
  mqtt_status : Bool
  db_status : String
  db_error_message : Option String
  deriving DecidableEq, Repr

/-- Python truthiness of the `db_error` variable (`None` or a string):
`if db_error:` is false for `None` and for the empty string. -/
def pyTruthyStr : Option String → Bool
  | none => false
  | some t => t ≠ ""

/-- `home` (wsgi.py lines 97-120): attempt the trivial query
`db.session.execute(db.select(1))`; on success report
`db_status = "ok"`, on an exception report `db_status = "error"` and
attach `db_error_message = str(e)` (only when that string is truthy).
The route always returns the jsonified dict, hence HTTP 200.  The
outcome of the trivial query against the external store is the
argument `dbQuery` (`.ok` when the store is reachable, `.error` with
`str(e)` otherwise). -/
def home (mqttConnected : Bool) (dbQuery : Except String Unit) :
    HomeResponse :=
  let pr := match dbQuery with
    | .ok _ => ("ok", (none : Option String))
    | .error e => ("error", some e)
  { httpStatus := 200
    status := "Eelytics API is Live"
    mqtt_status := mqttConnected
    db_status := pr.1
    db_error_message := if pyTruthyStr pr.2 then pr.2 else none }

/-- wsgi.py line 146 evaluates `request.get_json()`, but the name
`request` is never imported in the module (line 1 imports only `Flask`
and `jsonify` from `flask`, and no other statement binds `request`), so
the name lookup raises `NameError` before the request body is read. -/
def request_get_json : Except PyErr Json :=
  .error (.nameError "request")

/-- The `try` block of `api_command_gate` (wsgi.py lines 145-153):
`data = request.get_json()` (raises `NameError`, see
`request_get_json`); then `command = data.get('action')`; when the
command is `'open'` or `'close'`, publish via `send_gate_command` and
return 200 with `{status, tank_id, action}`, otherwise return 400 with
`{"error": "Invalid command"}`. -/
def apiCommandGateBody (tank_id : Int) :
    Except PyErr (HttpResponse × List PublishedMessage) := do
  let data ← request_get_json
  let command ← dictGetOpt data "action"
  match command with
  | some (Json.str s) =>
      if s = "open" || s = "close" then
        pure ({ httpStatus := 200,
                body := Json.obj
                  [("status", Json.str "Command sent"),
                   ("tank_id", Json.num (tank_id : ℚ)),
                   ("action", Json.str s)] },
              send_gate_command tank_id s)
      else
        pure ({ httpStatus := 400,
                body := Json.obj [("error", Json.str "Invalid command")] },
              [])
  | _ =>
      pure ({ httpStatus := 400,
              body := Json.obj [("error", Json.str "Invalid command")] },
            [])

/-- The invariant claimed for stored Readings: the `nullable=False`
columns `tank_id` and `level_cm` are never null. -/
def wellFormedRow (r : WaterLevel) : Prop :=
  r.tank_id ≠ none ∧ r.level_cm ≠ none

/-- `api_command_gate` (wsgi.py lines 141-155): run the body; any
exception is answered with 500 and `{"error": str(e)}` and nothing is
published.  `body` is the JSON body of the POST request; the code can
never observe it because the `request` name lookup raises first. -/
def api_command_gate (tank_id : Int) (body : Json) :
    HttpResponse × List PublishedMessage :=
  let _ := body
  match apiCommandGateBody tank_id with
  | .ok r => r
  | .error e =>
      ({ httpStatus := 500,
         body := Json.obj [("error", Json.str (pyErrStr e))] }, [])

/-! ## Theorems -/

/-- C8: for every target id `t` and command string `c`, the bridge's
outbound publish operation publishes exactly one message, to the topic
`command/gate/<t>/action`, whose payload is the JSON object
`{"action": c}`. -/
theorem C8_send_gate_command_publishes_one_message (t : Int) (c : String) :
    send_gate_command t c
      = [{ topic := "command/gate/" ++ toString t ++ "/action",
           payload := Json.obj [("action", Json.str c)] }]
    ∧ (send_gate_command t c).length = 1 :=
  ⟨rfl, rfl⟩

/-- C1: the claim says a POST to `/api/command/gate/5` with body
`{"action":"open"}` answers 200 and publishes one message; the code
instead raises `NameError` at `data = request.get_json()` (wsgi.py line
146) because `request` is never imported, so the route answers 500 with
`{"error": "name 'request' is not defined"}` and publishes nothing. -/
theorem C1_gate_open_post_returns_500_and_publishes_nothing :
    api_command_gate 5 (Json.obj [("action", Json.str "open")])
      = ({ httpStatus := 500,
           body := Json.obj
             [("error", Json.str (pyErrStr (PyErr.nameError "request")))] },
         []) :=
  rfl

/-- C2: the claim says a POST with an action outside `{open, close}`
(e.g. `"explode"`) answers 400; the `NameError` on the never-imported
name `request` is raised before the action is ever inspected, so the route
answers 500 (and, as the claim says, publishes nothing). -/
theorem C2_gate_invalid_action_returns_500_not_400 :
    api_command_gate 5 (Json.obj [("action", Json.str "explode")])
      = ({ httpStatus := 500,
           body := Json.obj
             [("error", Json.str (pyErrStr (PyErr.nameError "request")))] },
         []) :=
  rfl

/-- C3: the claim says no exception escapes the handler even for
payloads that fail to decode; but on such a payload the `except` block's
log line `print(f"Failed Payload: {message.payload.decode()}")`
(wsgi.py line 94) re-raises `UnicodeDecodeError`, which escapes the
handler.  Zero Readings are persisted, as claimed. -/
theorem C3_undecodable_payload_raises_from_logging :
    (handle_mqtt_message ⟨[], [], 0, 0, false⟩
        ⟨"sensor/tank/1/water_level", Payload.undecodable⟩).1.rows = []
    ∧ (handle_mqtt_message ⟨[], [], 0, 0, false⟩
        ⟨"sensor/tank/1/water_level", Payload.undecodable⟩).2
      = HandlerOutcome.raised PyErr.unicodeDecodeError :=
  ⟨rfl, rfl⟩

/-- C6: the health endpoint always answers HTTP 200; when the trivial
store query fails with a (non-empty) error text it reports
`db_status = "error"` together with `db_error_message`, and when the
query succeeds it reports `db_status = "ok"` and omits the message. -/
theorem C6_health_always_200_reports_db_error_detail
    (b : Bool) (e : String) (he : e ≠ "") :
    (home b (Except.error e)).httpStatus = 200
    ∧ (home b (Except.error e)).db_status = "error"
    ∧ (home b (Except.error e)).db_error_message = some e
    ∧ (home b (Except.ok ())).httpStatus = 200
    ∧ (home b (Except.ok ())).db_status = "ok"
    ∧ (home b (Except.ok ())).db_error_message = none := by
  simp [home, pyTruthyStr, he]

/-- Witness for C6 at a concrete failing store. -/
theorem C6_health_witness :
    (home true (Except.error "connection refused")).httpStatus = 200
    ∧ (home true (Except.error "connection refused")).db_status = "error"
    ∧ (home true (Except.error "connection refused")).db_error_message
      = some "connection refused"
    ∧ (home true (Except.ok ())).httpStatus = 200
    ∧ (home true (Except.ok ())).db_status = "ok"
    ∧ (home true (Except.ok ())).db_error_message = none :=
  C6_health_always_200_reports_db_error_detail true "connection refused"
    (by decide)

/-- C4: an inbound message on `sensor/tank/<id>/water_level` with an
integer id segment and a decoded payload whose `level` field is numeric
persists exactly one Reading, with source id `<id>` and value equal to
the level, and the handler returns normally.  (The session is empty
between messages — every exit path of the handler either commits or
rolls back — and the store is reachable.) -/
theorem C4_wellformed_level_message_persists_one_reading
    (st : DbState) (msg : MqttMessage) (text tidStr : String)
    (data : Json) (tid : Int) (q : ℚ)
    (htopic : pySplit '/' msg.topic.toList
        = ["sensor", "tank", tidStr, "water_level"])
    (hpayload : msg.payload = Payload.decoded text data)
    (htid : pyIntOfString tidStr = Except.ok tid)
    (hlevel : dictGet data "level" = Except.ok (Json.num q))
    (hpending : st.pending = [])
    (hfault : st.dbFault = false) :
    (handle_mqtt_message st msg).1.rows
      = st.rows ++ [{ id := st.nextId, tank_id := some tid,
                      level_cm := some q, timestamp := st.now }]
    ∧ (handle_mqtt_message st msg).2 = HandlerOutcome.ok := by
  simp only [String.toList] at htopic
  simp [handle_mqtt_message, handleBody, htopic, hpayload, htid, hlevel,
        payloadDecode, jsonLoads, pyIndex, commit, hpending, hfault,
        validatePending, validateLevel, insertRows]

/-- Witness for C4: tank 7 reports level 12. -/
theorem C4_wellformed_level_message_witness :
    (handle_mqtt_message ⟨[], [], 0, 0, false⟩
        ⟨"sensor/tank/7/water_level",
         Payload.decoded "p" (Json.obj [("level", Json.num 12)])⟩).1.rows
      = [] ++ [{ id := 0, tank_id := some 7, level_cm := some 12,
                 timestamp := 0 }]
    ∧ (handle_mqtt_message ⟨[], [], 0, 0, false⟩
        ⟨"sensor/tank/7/water_level",
         Payload.decoded "p" (Json.obj [("level", Json.num 12)])⟩).2
      = HandlerOutcome.ok :=
  C4_wellformed_level_message_persists_one_reading
    ⟨[], [], 0, 0, false⟩ _ "p" "7" (Json.obj [("level", Json.num 12)]) 7 12
    (by decide) rfl rfl rfl rfl rfl

/-- C7: when the store fails the commit of an inbound message (the
session has been touched by `db.session.add`), the `except` block rolls
the in-flight transaction back: the stored rows are unchanged, the
session is left empty, and the handler returns normally — the failure is
not surfaced to any caller. -/
theorem C7_persistence_failure_rolls_back_and_is_swallowed
    (st : DbState) (msg : MqttMessage) (text tidStr : String)
    (data : Json) (tid : Int) (lvl : Json)
    (htopic : pySplit '/' msg.topic.toList
        = ["sensor", "tank", tidStr, "water_level"])
    (hpayload : msg.payload = Payload.decoded text data)
    (htid : pyIntOfString tidStr = Except.ok tid)
    (hlevel : dictGet data "level" = Except.ok lvl)
    (hfault : st.dbFault = true) :
    (handle_mqtt_message st msg).1.rows = st.rows
    ∧ (handle_mqtt_message st msg).1.pending = []
    ∧ (handle_mqtt_message st msg).2 = HandlerOutcome.ok := by
  simp only [String.toList] at htopic
  simp [handle_mqtt_message, handleBody, htopic, hpayload, htid, hlevel,
        payloadDecode, jsonLoads, pyIndex, commit, hfault, rollback]

/-- Witness for C7: the store is down while tank 7 reports level 12. -/
theorem C7_persistence_failure_witness :
    (handle_mqtt_message ⟨[], [], 0, 0, true⟩
        ⟨"sensor/tank/7/water_level",
         Payload.decoded "p" (Json.obj [("level", Json.num 12)])⟩).1.rows
      = []
    ∧ (handle_mqtt_message ⟨[], [], 0, 0, true⟩
        ⟨"sensor/tank/7/water_level",
         Payload.decoded "p" (Json.obj [("level", Json.num 12)])⟩).1.pending
      = []
    ∧ (handle_mqtt_message ⟨[], [], 0, 0, true⟩
        ⟨"sensor/tank/7/water_level",
         Payload.decoded "p" (Json.obj [("level", Json.num 12)])⟩).2
      = HandlerOutcome.ok :=
  C7_persistence_failure_rolls_back_and_is_swallowed
    ⟨[], [], 0, 0, true⟩ _ "p" "7" (Json.obj [("level", Json.num 12)]) 7
    (Json.num 12) (by decide) rfl rfl rfl rfl

/-- C10: an inbound message on `sensor/tank/<id>/water_level` whose id
segment is not a decimal integer string makes `int(topic_parts[2])`
raise `ValueError`; the `except` block catches it (the payload decoded,
so the logging there succeeds), zero Readings are persisted, and the
handler returns normally. -/
theorem C10_non_integer_tank_id_is_dropped
    (st : DbState) (msg : MqttMessage) (text tidStr : String) (data : Json)
    (htopic : pySplit '/' msg.topic.toList
        = ["sensor", "tank", tidStr, "water_level"])
    (hpayload : msg.payload = Payload.decoded text data)
    (htid : pyIntOfString tidStr = Except.error PyErr.valueError) :
    (handle_mqtt_message st msg).1.rows = st.rows
    ∧ (handle_mqtt_message st msg).2 = HandlerOutcome.ok := by
  simp only [String.toList] at htopic
  simp [handle_mqtt_message, handleBody, htopic, hpayload, htid,
        payloadDecode, jsonLoads, pyIndex, rollback]

/-- Witness for C10: id segment `"abc"`. -/
theorem C10_non_integer_tank_id_witness :
    (handle_mqtt_message ⟨[], [], 0, 0, false⟩
        ⟨"sensor/tank/abc/water_level",
         Payload.decoded "p" (Json.obj [("level", Json.num 12)])⟩).1.rows
      = []
    ∧ (handle_mqtt_message ⟨[], [], 0, 0, false⟩
        ⟨"sensor/tank/abc/water_level",
         Payload.decoded "p" (Json.obj [("level", Json.num 12)])⟩).2
      = HandlerOutcome.ok :=
  C10_non_integer_tank_id_is_dropped
    ⟨[], [], 0, 0, false⟩ _ "p" "abc" (Json.obj [("level", Json.num 12)])
    (by decide) rfl rfl

/-- C5: `get_levels` returns every stored Reading exactly once
(a permutation of the serialized table, hence no pagination or limit),
each serialized as `{id, tank_id, level_cm, timestamp}` by
`serializeLevel`, in non-increasing timestamp order. -/
theorem C5_get_levels_newest_first_and_complete (st : DbState) :
    (get_levels st).Perm (st.rows.map serializeLevel)
    ∧ List.Chain' (fun a b : LevelJson => b.timestamp ≤ a.timestamp)
        (get_levels st) := by
  constructor
  · simpa [get_levels] using
      (List.mergeSort_perm st.rows
        (fun a b => Nat.ble b.timestamp a.timestamp)).map serializeLevel
  · have hs : (st.rows.mergeSort
        (fun a b => Nat.ble b.timestamp a.timestamp)).Pairwise
          (fun a b => Nat.ble b.timestamp a.timestamp = true) :=
      List.sorted_mergeSort
        (fun a b c h1 h2 => by
          simp only [Nat.ble_eq] at h1 h2 ⊢
          omega)
        (fun a b => by
          simp only [Bool.or_eq_true, Nat.ble_eq]
          omega)
        st.rows
    have hmap : List.Pairwise
        (fun a b : LevelJson => b.timestamp ≤ a.timestamp)
        ((st.rows.mergeSort
          (fun a b => Nat.ble b.timestamp a.timestamp)).map serializeLevel) :=
      hs.map serializeLevel
        (fun a b hab => by
          simp only [Nat.ble_eq] at hab
          simpa [serializeLevel] using hab)
    simpa [get_levels] using hmap.chain'

/-- Every row produced by `insertRows` has non-null columns. -/
theorem insertRows_wellFormed (now : Nat) :
    ∀ (vals : List (Int × ℚ)) (nid : Nat),
      ∀ r ∈ insertRows nid now vals, wellFormedRow r := by
  intro vals
  induction vals with
  | nil => intro nid r hr; simp [insertRows] at hr
  | cons v rest ih =>
      intro nid r hr
      obtain ⟨t, q⟩ := v
      simp only [insertRows, List.mem_cons] at hr
      rcases hr with rfl | hr
      · exact ⟨by simp, by simp⟩
      · exact ih (nid + 1) r hr

/-- A successful commit appends rows with non-null columns and changes
nothing else in the table; a failed commit raises without touching the
table. -/
theorem commit_rows (st : DbState) :
    ∀ st2, commit st = Except.ok st2 →
      ∃ new, st2.rows = st.rows ++ new ∧ ∀ r ∈ new, wellFormedRow r := by
  intro st2 h
  unfold commit at h
  split at h
  · exact absurd h (by simp)
  · split at h
    · exact absurd h (by simp)
    · cases h
      exact ⟨_, rfl, insertRows_wellFormed st.now _ st.nextId⟩

/-- The try-block of the handler either returns a state whose table is
the old table plus well-formed rows, or raises with the table
unchanged. -/
theorem handleBody_rows (st : DbState) (msg : MqttMessage) :
    (∀ st2, handleBody st msg = Except.ok st2 →
        ∃ new, st2.rows = st.rows ++ new ∧ ∀ r ∈ new, wellFormedRow r)
    ∧ (∀ st1 e, handleBody st msg = Except.error (st1, e) →
        st1.rows = st.rows) := by
  constructor
  · intro st2 h
    simp only [handleBody] at h
    repeat' split at h
    all_goals cases h
    all_goals
      first
      | (refine ⟨[], ?_, fun r hr => absurd hr (List.not_mem_nil r)⟩
         rw [List.append_nil]
         done)
      | (rename_i hc
         have hap := commit_rows _ _ hc
         exact hap)
  · intro st1 e h
    simp only [handleBody] at h
    repeat' split at h
    all_goals
      first
      | (cases h; rfl)
      | (cases h)

/-- C9: one handler invocation (the only operation of the system that
writes to the store) only ever appends to the table — existing Readings
are neither mutated nor deleted — and when every stored Reading has
non-null `tank_id` and `level_cm`, the same holds of every Reading
stored afterwards. -/
theorem C9_readings_append_only_and_wellformed
    (st : DbState) (msg : MqttMessage)
    (hinv : ∀ r ∈ st.rows, wellFormedRow r) :
    ∃ new, (handle_mqtt_message st msg).1.rows = st.rows ++ new
      ∧ ∀ r ∈ (handle_mqtt_message st msg).1.rows, wellFormedRow r := by
  obtain ⟨hok, herr⟩ := handleBody_rows st msg
  unfold handle_mqtt_message
  cases hb : handleBody st msg with
  | ok st2 =>
      obtain ⟨new, hr, hw⟩ := hok st2 hb
      refine ⟨new, hr, ?_⟩
      intro r hrmem
      rw [hr] at hrmem
      rcases List.mem_append.mp hrmem with h | h
      · exact hinv r h
      · exact hw r h
  | error pr =>
      obtain ⟨st1, e⟩ := pr
      have hr := herr st1 e hb
      cases hd : payloadDecode msg.payload with
      | ok t =>
          exact ⟨[], by simp [rollback, hr], by
            intro r hrmem
            simp only [rollback] at hrmem
            exact hinv r (hr ▸ hrmem)⟩
      | error e2 =>
          exact ⟨[], by simp [rollback, hr], by
            intro r hrmem
            simp only [rollback] at hrmem
            exact hinv r (hr ▸ hrmem)⟩

/-- Witness for C9 on an initially empty store. -/
theorem C9_readings_append_only_witness :
    ∃ new, (handle_mqtt_message ⟨[], [], 0, 0, false⟩
        ⟨"sensor/tank/2/water_level",
         Payload.decoded "p" (Json.obj [("level", Json.num 3)])⟩).1.rows
      = [] ++ new
    ∧ ∀ r ∈ (handle_mqtt_message ⟨[], [], 0, 0, false⟩
        ⟨"sensor/tank/2/water_level",
         Payload.decoded "p" (Json.obj [("level", Json.num 3)])⟩).1.rows,
        wellFormedRow r :=
  C9_readings_append_only_and_wellformed ⟨[], [], 0, 0, false⟩ _
    (by simp)

end Eelytics
